import Mathlib

/-!
Verification of the `BundledOutput` orchestrator of `bundled_output.go`.

The Go code is shallowly embedded as pure Lean functions.  Go strings are
modelled as `List Char`; every external effect (the result of an `os` call,
the Sink Writer's answer, the Upload Backend's answer, the directory
listing) is an explicit argument, and every emitted effect (statuses sent
on the result channel, `go uploadOne(...)` tasks spawned) is an explicit
component of the returned value.  Counters and sizes (`int64` in Go) are
modelled as `Nat`: they only ever start at zero and grow by non-negative
amounts, so no overflow or sign behaviour is reachable in the embedded
fragment.
-/

/-- Go strings (byte/character sequences) are modelled as lists of characters. -/
abbrev GoStr := List Char

/-- Coerce a Lean string literal to the `GoStr` model. -/
def str (s : String) : GoStr := s.data

/-- Embeds Go `UploadStatus{fileName string; result error}`.  A Go `error` is
`none` for `nil` and `some msg` for a non-nil error. -/
structure UploadStatus where
  fileName : GoStr
  result : Option GoStr
  deriving DecidableEq

/-- Embeds the mutable fields of Go `BundledOutput` that the embedded
functions read or write.  `behavior`, the channel and the lock are not state:
the behavior's answers enter as explicit arguments, and channel sends leave
as explicit results.  Times and durations are in abstract units. -/
structure BundledOutput where
  tempFileDirectory : GoStr
  rollOverDuration : Nat
  currentFileSize : Nat
  maxFileSize : Nat
  lastUploadError : GoStr
  lastUploadErrorTime : Nat
  uploadErrors : Nat
  successfulUploads : Nat
  filesToUpload : List GoStr
  deriving DecidableEq

/-- The Go zero value of the `BundledOutput` struct (fresh allocation). -/
def BundledOutput.zero : BundledOutput :=
  { tempFileDirectory := []
    rollOverDuration := 0
    currentFileSize := 0
    maxFileSize := 0
    lastUploadError := []
    lastUploadErrorTime := 0
    uploadErrors := 0
    successfulUploads := 0
    filesToUpload := [] }

/-- `10 * 1024 * 1024`, the maximum file size set by `Initialize`. -/
def defaultMaxFileSize : Nat := 10 * 1024 * 1024

/-- `5 * time.Minute` in seconds, the roll-over duration set by `Initialize`. -/
def defaultRollOverDuration : Nat := 5 * 60

/-- The fixed default buffer directory used when the connection string has no colon. -/
def defaultTempFileDirectory : GoStr := str ("/var/cb/data/event-forwarder")

/-- The fixed base file name of the live file. -/
def baseFileName : GoStr := str ("event-forwarder")

/-- What one invocation of `uploadOne` does: the `UploadStatus` values sent on
`fileResultChan` in order, whether `behavior.UploadBehavior` was invoked, and
whether `os.Remove` was attempted on the file. -/
structure UploadOneResult where
  sent : List UploadStatus
  backendInvoked : Bool
  removeAttempted : Bool
  deriving DecidableEq

/-- Embeds `uploadOne` (bundled_output.go lines 61-80).  `openErr` is the
result of `os.OpenFile` (`some e` on failure); `backendStatus` is the value
`behavior.UploadBehavior(fileName, fp)` returns.  Note the Go source has no
`return` after the failed-open send: it falls through, invokes the behavior
on the nil handle and sends a second status. -/
def uploadOne (fileName : GoStr) (openErr : Option GoStr)
    (backendStatus : UploadStatus) : UploadOneResult :=
  let openSends : List UploadStatus :=
    match openErr with
    | some e => [{ fileName := fileName, result := some e }]
    | none => []
  { sent := openSends ++ [backendStatus]
    backendInvoked := true
    removeAttempted := backendStatus.result = none }

/-- One entry of the `Readdir` listing: its `Name()` and `IsDir()`. -/
structure DirEntry where
  name : GoStr
  isDir : Bool
  deriving DecidableEq

/-- Embeds Go `strings.TrimPrefix(s, p)`: drops `p` from the front of `s`
when `s` starts with `p`, otherwise returns `s` unchanged. -/
def goTrimPref (s p : GoStr) : GoStr :=
  if p.isPrefixOf s then s.drop p.length else s

/-- Embeds Go `filepath.Join(dir, fn)` for the paths this code builds
(a cleaned directory joined with a plain file name). -/
def filepathJoin (dir fn : GoStr) : GoStr := dir ++ [Char.ofNat 47] ++ fn

/-- The body of the `queueStragglers` loop (lines 93-106) acting on the
accumulated `filesToUpload` list. -/
def stragglerStep (dir : GoStr) (acc : List GoStr) (info : DirEntry) : List GoStr :=
  if info.isDir then acc
  else if ¬ (baseFileName.isPrefixOf info.name) then acc
  else if (goTrimPref info.name baseFileName).length > 0 then
    acc ++ [filepathJoin dir info.name]
  else acc

/-- The condition under which the `queueStragglers` loop enqueues an entry,
read off the code: not a directory, name has the base prefix, and the
trimmed remainder is non-empty. -/
def stragglerQualifies (info : DirEntry) : Bool :=
  !info.isDir && baseFileName.isPrefixOf info.name &&
    decide ((goTrimPref info.name baseFileName).length > 0)

/-- Embeds `queueStragglers` (lines 82-107).  `listing` is the outcome of
`os.Open` + `Readdir`: `none` when either fails (the function returns with
the state unchanged), `some infos` otherwise.  The loop body is embedded
literally as a fold over the listing. -/
def queueStragglers (o : BundledOutput) (listing : Option (List DirEntry)) :
    BundledOutput :=
  match listing with
  | none => o
  | some infos =>
    { o with filesToUpload :=
        infos.foldl (stragglerStep o.tempFileDirectory) o.filesToUpload }

/-- Embeds Go `strings.SplitN(s, ":", 2)`. -/
def goSplitN2 (s : GoStr) : List GoStr :=
  if s.contains (Char.ofNat 58) then
    [s.takeWhile (fun c => c != Char.ofNat 58),
     (s.dropWhile (fun c => c != Char.ofNat 58)).drop 1]
  else [s]

/-- The external outcomes `Initialize` consults: whether a behavior was
configured, the behavior's `Initialize(connString)` result, the
`os.MkdirAll` result, the Sink Writer's (`FileOutput`) `Initialize` result,
and the buffer-directory listing seen by `queueStragglers`. -/
structure InitEnv where
  behaviorConfigured : Bool
  behaviorInitErr : Option GoStr
  mkdirErr : Option GoStr
  sinkInitErr : Option GoStr
  listing : Option (List DirEntry)
  deriving DecidableEq

/-- What `Initialize` did: the final struct state, the returned error, the
argument passed to `behavior.Initialize` (`none` when it was never called),
and whether the straggler scan ran. -/
structure InitResult where
  state : BundledOutput
  err : Option GoStr
  backendArg : Option GoStr
  stragglersRan : Bool
  deriving DecidableEq

/-- Embeds `Initialize` (lines 109-149).  Field assignments happen in source
order; the full `connString` is what line 131 hands to
`behavior.Initialize`; `queueStragglers` runs after the Sink Writer's
`Initialize`, whose error is only returned afterwards (line 148). -/
def BundledOutput.Initialize (o : BundledOutput) (connString : GoStr)
    (env : InitEnv) : InitResult :=
  let o := { o with filesToUpload := [],
                    maxFileSize := defaultMaxFileSize,
                    rollOverDuration := defaultRollOverDuration }
  let parts := goSplitN2 connString
  let o := if parts.length > 1 then { o with tempFileDirectory := parts.headD [] }
           else { o with tempFileDirectory := defaultTempFileDirectory }
  if ¬ env.behaviorConfigured then
    { state := o, err := some (str ("BundledOutput Initialize called without a behavior"))
      backendArg := none, stragglersRan := false }
  else
    match env.behaviorInitErr with
    | some e => { state := o, err := some e, backendArg := some connString
                  stragglersRan := false }
    | none =>
      match env.mkdirErr with
      | some e => { state := o, err := some e, backendArg := some connString
                    stragglersRan := false }
      | none =>
        { state := queueStragglers o env.listing
          err := env.sinkInitErr
          backendArg := some connString
          stragglersRan := true }

/-- The outcome of one synchronous step of the orchestrator: the new struct
state, the file paths handed to freshly spawned `go uploadOne(...)` tasks in
spawn order, and the error the step reports (`none` on success). -/
structure StepResult where
  state : BundledOutput
  spawned : List GoStr
  err : Option GoStr
  deriving DecidableEq

/-- Embeds `rollOver` (lines 164-175).  `rollResult` is what the Sink
Writer's `rollOverFile` returned: the new permanent path, or an error.  On
success one `uploadOne` task is spawned for the new path and the tracked
size is reset; on error nothing else happens. -/
def BundledOutput.rollOver (o : BundledOutput)
    (rollResult : Except GoStr GoStr) : StepResult :=
  match rollResult with
  | Except.error e => { state := o, spawned := [], err := some e }
  | Except.ok fn =>
    { state := { o with currentFileSize := 0 }, spawned := [fn], err := none }

/-- Embeds `output` (lines 151-162).  `rollResult` is consulted only when the
size check triggers a roll-over; `appendErr` is what the Sink Writer's
append (`tempFileOutput.output(message)`) returns.  The tracked size is
incremented before the append is delegated, so it grows even when the
append itself fails. -/
def BundledOutput.output (o : BundledOutput) (msgLen : Nat)
    (rollResult : Except GoStr GoStr) (appendErr : Option GoStr) : StepResult :=
  if o.currentFileSize + msgLen > o.maxFileSize then
    let r := o.rollOver rollResult
    match r.err with
    | some e => { state := r.state, spawned := r.spawned, err := some e }
    | none =>
      { state := { r.state with currentFileSize := r.state.currentFileSize + msgLen }
        spawned := r.spawned
        err := appendErr }
  else
    { state := { o with currentFileSize := o.currentFileSize + msgLen }
      spawned := []
      err := appendErr }

/-- Embeds the `refreshTicker` case of the event loop (lines 215-227).
`elapsed` is `time.Now().Sub(o.tempFileOutput.lastRolledOver)`; `rollResult`
is the Sink Writer's answer if a roll-over is attempted.  On a roll-over
error the loop sends the error and returns, so the queue dispatch below the
check does not run. -/
def BundledOutput.handleTick (o : BundledOutput) (elapsed : Nat)
    (rollResult : Except GoStr GoStr) : StepResult :=
  if elapsed > o.rollOverDuration then
    let r := o.rollOver rollResult
    match r.err with
    | some e => { state := r.state, spawned := r.spawned, err := some e }
    | none =>
      match r.state.filesToUpload with
      | [] => { state := r.state, spawned := r.spawned, err := none }
      | fn :: rest =>
        { state := { r.state with filesToUpload := rest }
          spawned := r.spawned ++ [fn]
          err := none }
  else
    match o.filesToUpload with
    | [] => { state := o, spawned := [], err := none }
    | fn :: rest =>
      { state := { o with filesToUpload := rest }, spawned := [fn], err := none }

/-- Embeds the `fileResultChan` case of the event loop (lines 229-241).
`now` is `time.Now()` at the moment the failure is recorded. -/
def BundledOutput.handleFileResult (o : BundledOutput) (fileResult : UploadStatus)
    (now : Nat) : BundledOutput :=
  match fileResult.result with
  | some e =>
    { o with uploadErrors := o.uploadErrors + 1
             lastUploadError := e
             lastUploadErrorTime := now
             filesToUpload := o.filesToUpload ++ [fileResult.fileName] }
  | none => { o with successfulUploads := o.successfulUploads + 1 }

/-- Embeds the `hup` (SIGHUP flush) case of the event loop (lines 243-249):
an unconditional `rollOver`. -/
def BundledOutput.handleHup (o : BundledOutput)
    (rollResult : Except GoStr GoStr) : StepResult :=
  o.rollOver rollResult

/-- A fixed path used where a roll-over result is needed but, in the states
considered, the roll-over branch is never reached. -/
def dummyPath : GoStr := str ("rolled")

/-- One `output` call (all external operations succeeding) in a sequence,
accumulating the spawned upload tasks. -/
def outputsStep (acc : BundledOutput × List GoStr) (msgLen : Nat) :
    BundledOutput × List GoStr :=
  let r := acc.1.output msgLen (Except.ok dummyPath) none
  (r.state, acc.2 ++ r.spawned)

/-- Runs a sequence of `output` calls (all external operations succeeding),
accumulating the spawned upload tasks. -/
def outputsOk (o : BundledOutput) (lens : List Nat) : BundledOutput × List GoStr :=
  lens.foldl outputsStep (o, [])

/-- Modelled from the spec: the Sink Writer (`FileOutput`, outside this
repository's source) appends each message's bytes to the live file, and its
`Initialize` opens the existing base file for appending without truncating
it, so bytes from a previous run stay in the live file.  `liveSize` is the
live file's byte count before the append. -/
def sinkAppend (liveSize msgLen : Nat) : Nat := liveSize + msgLen

/-! ### Helper lemmas -/

lemma isPrefixOf_length_le : ∀ (p n : GoStr), p.isPrefixOf n = true → p.length ≤ n.length := by
  intro p
  induction p with
  | nil => intro n _; simp
  | cons a as ih =>
    intro n h
    cases n with
    | nil => simp [List.isPrefixOf] at h
    | cons b bs =>
      simp only [List.isPrefixOf, Bool.and_eq_true] at h
      simpa using Nat.succ_le_succ (ih bs h.2)

lemma goTrimPref_length_pos (n : GoStr) (h : baseFileName.isPrefixOf n = true) :
    (goTrimPref n baseFileName).length > 0 ↔ baseFileName.length < n.length := by
  unfold goTrimPref
  rw [if_pos h, List.length_drop]
  have hle := isPrefixOf_length_le baseFileName n h
  omega

lemma stragglerStep_eq (dir : GoStr) (acc : List GoStr) (info : DirEntry) :
    stragglerStep dir acc info =
      if stragglerQualifies info then acc ++ [filepathJoin dir info.name] else acc := by
  unfold stragglerStep stragglerQualifies
  by_cases h1 : info.isDir
  · simp [h1]
  · by_cases h2 : baseFileName.isPrefixOf info.name = true
    · by_cases h3 : (goTrimPref info.name baseFileName).length > 0
      · simp [h1, h2, h3]
      · simp [h1, h2, h3]
    · simp [h1, h2]

lemma foldl_stragglerStep (dir : GoStr) :
    ∀ (infos : List DirEntry) (q : List GoStr),
      infos.foldl (stragglerStep dir) q =
        q ++ (infos.filter stragglerQualifies).map
          (fun info => filepathJoin dir info.name) := by
  intro infos
  induction infos with
  | nil => intro q; simp
  | cons info rest ih =>
    intro q
    rw [List.foldl_cons, stragglerStep_eq, List.filter_cons]
    by_cases h : stragglerQualifies info
    · rw [if_pos h, if_pos h, ih]
      simp
    · rw [if_neg h, if_neg h, ih]

/-! ### Claim theorems -/

/-- C2: the claim says `uploadOne` reports exactly one outcome per
invocation and, on an open failure, does not invoke the Upload Backend.
The code (missing `return` at line 65) instead sends the open failure and
then still invokes `behavior.UploadBehavior` on the nil handle and sends its
status as a second report.  This theorem evaluates the embedded code at a
failing open. -/
theorem C2_open_failure_double_report :
    (uploadOne (str ("f")) (some (str ("open failed")))
        { fileName := str ("f"), result := some (str ("backend failed")) }).sent.length = 2
  ∧ (uploadOne (str ("f")) (some (str ("open failed")))
        { fileName := str ("f"), result := some (str ("backend failed")) }).backendInvoked
      = true := by
  decide

/-- C3: on a successful Sink Writer roll-over, `rollOver` resets the tracked
size to zero and spawns exactly one upload task for the returned path,
reporting no error; on a failed roll-over it returns the error, leaves the
state unchanged and spawns nothing. -/
theorem C3_rollOver_contract :
    ∀ (o : BundledOutput),
      (∀ fn, (o.rollOver (Except.ok fn)).state.currentFileSize = 0 ∧
             (o.rollOver (Except.ok fn)).state =
               { o with currentFileSize := 0 } ∧
             (o.rollOver (Except.ok fn)).spawned = [fn] ∧
             (o.rollOver (Except.ok fn)).err = none)
    ∧ (∀ e, (o.rollOver (Except.error e)).err = some e ∧
            (o.rollOver (Except.error e)).state = o ∧
            (o.rollOver (Except.error e)).spawned = []) := by
  intro o
  exact ⟨fun fn => ⟨rfl, rfl, rfl, rfl⟩, fun e => ⟨rfl, rfl, rfl⟩⟩

/-- C4: an upload outcome carrying an error bumps `uploadErrors` by one,
records the error text and time, and appends the path to the back of the
pending queue; an error-free outcome bumps `successfulUploads` by one and
leaves everything else (the queue included) unchanged. -/
theorem C4_fileResult_accounting :
    ∀ (o : BundledOutput) (fr : UploadStatus) (now : Nat),
      (∀ e, fr.result = some e →
        o.handleFileResult fr now =
          { o with uploadErrors := o.uploadErrors + 1
                   lastUploadError := e
                   lastUploadErrorTime := now
                   filesToUpload := o.filesToUpload ++ [fr.fileName] })
    ∧ (fr.result = none →
        o.handleFileResult fr now =
          { o with successfulUploads := o.successfulUploads + 1 }) := by
  intro o fr now
  constructor
  · intro e he
    unfold BundledOutput.handleFileResult
    rw [he]
  · intro he
    unfold BundledOutput.handleFileResult
    rw [he]

/-- Closed instance of `C4_fileResult_accounting` at concrete inputs. -/
theorem C4_fileResult_accounting_witness :
    BundledOutput.zero.handleFileResult
        { fileName := str ("f"), result := some (str ("boom")) } 7 =
      { BundledOutput.zero with uploadErrors := 1
                                lastUploadError := str ("boom")
                                lastUploadErrorTime := 7
                                filesToUpload := [str ("f")] }
  ∧ BundledOutput.zero.handleFileResult { fileName := str ("f"), result := none } 7 =
      { BundledOutput.zero with successfulUploads := 1 } := by
  constructor
  · exact (C4_fileResult_accounting BundledOutput.zero
      { fileName := str ("f"), result := some (str ("boom")) } 7).1 (str ("boom")) rfl
  · exact (C4_fileResult_accounting BundledOutput.zero
      { fileName := str ("f"), result := none } 7).2 rfl

/-- C5: an entry is enqueued by the straggler scan iff it is a regular file
(not a directory, at the granularity `Readdir` exposes) whose name has the
base prefix and is strictly longer than it; qualifying entries are appended
in listing order, and a listing of N qualifying rolled files plus the bare
base file enqueues exactly N paths. -/
theorem C5_straggler_scan :
    (∀ (o : BundledOutput) (infos : List DirEntry),
      (queueStragglers o (some infos)).filesToUpload =
        o.filesToUpload ++ (infos.filter stragglerQualifies).map
          (fun info => filepathJoin o.tempFileDirectory info.name))
  ∧ (∀ info : DirEntry, stragglerQualifies info = true ↔
      (info.isDir = false ∧ baseFileName.isPrefixOf info.name = true ∧
        baseFileName.length < info.name.length))
  ∧ (∀ (o : BundledOutput) (rolled : List DirEntry),
      o.filesToUpload = [] →
      (∀ info ∈ rolled, stragglerQualifies info = true) →
      (queueStragglers o
          (some (rolled ++ [{ name := baseFileName, isDir := false }]))).filesToUpload.length
        = rolled.length) := by
  refine ⟨?_, ?_, ?_⟩
  · intro o infos
    unfold queueStragglers
    simp only
    rw [foldl_stragglerStep]
  · intro info
    unfold stragglerQualifies
    constructor
    · intro h
      simp only [Bool.and_eq_true, Bool.not_eq_true', decide_eq_true_eq] at h
      exact ⟨h.1.1, h.1.2, (goTrimPref_length_pos info.name h.1.2).mp h.2⟩
    · intro h
      simp only [Bool.and_eq_true, Bool.not_eq_true', decide_eq_true_eq]
      exact ⟨⟨h.1, h.2.1⟩, (goTrimPref_length_pos info.name h.2.1).mpr h.2.2⟩
  · intro o rolled hq hall
    unfold queueStragglers
    simp only
    rw [foldl_stragglerStep, hq]
    have hbase : stragglerQualifies { name := baseFileName, isDir := false } = false := by
      decide
    rw [List.filter_append]
    simp [List.filter_eq_self.mpr hall, hbase]

/-- Closed instance of `C5_straggler_scan` at a concrete two-file listing. -/
theorem C5_straggler_scan_witness :
    (queueStragglers BundledOutput.zero
        (some ([{ name := str ("event-forwarder2026-01-01"), isDir := false },
                { name := str ("event-forwarder2026-01-02"), isDir := false }] ++
               [{ name := baseFileName, isDir := false }]))).filesToUpload.length = 2 := by
  exact C5_straggler_scan.2.2 BundledOutput.zero
    [{ name := str ("event-forwarder2026-01-01"), isDir := false },
     { name := str ("event-forwarder2026-01-02"), isDir := false }]
    rfl (by decide)

lemma outputsStep_foldl :
    ∀ (lens : List Nat) (o : BundledOutput) (acc : List GoStr),
      o.currentFileSize + lens.sum ≤ o.maxFileSize →
      (lens.foldl outputsStep (o, acc)).2 = acc ∧
      (lens.foldl outputsStep (o, acc)).1.currentFileSize =
        o.currentFileSize + lens.sum ∧
      (lens.foldl outputsStep (o, acc)).1.maxFileSize = o.maxFileSize := by
  intro lens
  induction lens with
  | nil =>
    intro o acc _
    simp
  | cons len rest ih =>
    intro o acc h
    simp only [List.sum_cons] at h
    have hnot : ¬ (o.currentFileSize + len > o.maxFileSize) := by omega
    rw [List.foldl_cons]
    have hstep : outputsStep (o, acc) len =
        ({ o with currentFileSize := o.currentFileSize + len }, acc) := by
      simp [outputsStep, BundledOutput.output, hnot]
    rw [hstep]
    have hrec := ih { o with currentFileSize := o.currentFileSize + len } acc
      (by simp; omega)
    refine ⟨hrec.1, ?_, ?_⟩
    · rw [hrec.2.1]
      simp only [List.sum_cons]
      omega
    · rw [hrec.2.2]

/-- C1: `output` rolls over before appending exactly when the tracked size
plus the message length strictly exceeds `maxFileSize`; a sequence of calls
whose cumulative length stays within `maxFileSize` never rolls over and ends
with the tracked size equal to the cumulative length; and in the concrete
scenario `maxFileSize=100` with messages of length 60 then 60, only the
second call rolls over (spawning the upload of the rolled file) and leaves
`currentFileSize = 60`. -/
theorem C1_output_size_policy :
    (∀ (o : BundledOutput) (msgLen : Nat) (p : GoStr) (appendErr : Option GoStr),
        (o.output msgLen (Except.ok p) appendErr).spawned ≠ [] ↔
          o.currentFileSize + msgLen > o.maxFileSize)
  ∧ (∀ (o : BundledOutput) (msgLen : Nat) (rollResult : Except GoStr GoStr)
        (appendErr : Option GoStr),
        ¬ (o.currentFileSize + msgLen > o.maxFileSize) →
        (o.output msgLen rollResult appendErr).spawned = [] ∧
        (o.output msgLen rollResult appendErr).state =
          { o with currentFileSize := o.currentFileSize + msgLen })
  ∧ (∀ (o : BundledOutput) (lens : List Nat),
        o.currentFileSize = 0 → lens.sum ≤ o.maxFileSize →
        (outputsOk o lens).2 = [] ∧
        (outputsOk o lens).1.currentFileSize = lens.sum)
  ∧ (({ BundledOutput.zero with maxFileSize := 100 }.output 60
        (Except.ok (str ("p1"))) none).spawned = []
     ∧ ({ BundledOutput.zero with maxFileSize := 100 }.output 60
        (Except.ok (str ("p1"))) none).state.currentFileSize = 60
     ∧ (({ BundledOutput.zero with maxFileSize := 100 }.output 60
          (Except.ok (str ("p1"))) none).state.output 60
          (Except.ok (str ("p2"))) none).spawned = [str ("p2")]
     ∧ (({ BundledOutput.zero with maxFileSize := 100 }.output 60
          (Except.ok (str ("p1"))) none).state.output 60
          (Except.ok (str ("p2"))) none).state.currentFileSize = 60) := by
  refine ⟨?_, ?_, ?_, ?_⟩
  · intro o msgLen p appendErr
    by_cases h : o.currentFileSize + msgLen > o.maxFileSize
    · simp [BundledOutput.output, BundledOutput.rollOver, h]
    · simp [BundledOutput.output, BundledOutput.rollOver, h]
  · intro o msgLen rollResult appendErr h
    simp [BundledOutput.output, h]
  · intro o lens h0 hsum
    have h := outputsStep_foldl lens o [] (by omega)
    unfold outputsOk
    exact ⟨h.1, by rw [h.2.1, h0]; omega⟩
  · decide

/-- Closed instance of `C1_output_size_policy`: two messages of lengths 30
and 40 against `maxFileSize = 100` spawn no upload and leave the tracked
size at 70. -/
theorem C1_output_size_policy_witness :
    (outputsOk { BundledOutput.zero with maxFileSize := 100 } [30, 40]).2 = []
  ∧ (outputsOk { BundledOutput.zero with maxFileSize := 100 } [30, 40]).1.currentFileSize
      = 70 := by
  have h := C1_output_size_policy.2.2.1 { BundledOutput.zero with maxFileSize := 100 }
    [30, 40] rfl (by decide)
  exact ⟨h.1, h.2⟩

lemma takeWhileNoColon :
    ∀ (pre post : GoStr), Char.ofNat 58 ∉ pre →
      (pre ++ Char.ofNat 58 :: post).takeWhile (fun c => c != Char.ofNat 58) = pre := by
  intro pre
  induction pre with
  | nil =>
    intro post _
    simp [List.takeWhile_cons]
  | cons a as ih =>
    intro post h
    simp only [List.mem_cons, not_or] at h
    have ha : (a != Char.ofNat 58) = true := by
      simpa using Ne.symm h.1
    simp only [List.cons_append, List.takeWhile_cons, ha, if_true]
    rw [ih post h.2]

/-- C6 is false at `connString = "dir:rest"`: the argument handed to the
Upload Backend's `Initialize` is the whole string `"dir:rest"` (line 131
passes `connString`), not the remainder `"rest"` after the colon. -/
theorem C6_whole_string_cex :
    (BundledOutput.zero.Initialize (str ("dir:rest"))
        { behaviorConfigured := true, behaviorInitErr := none, mkdirErr := none,
          sinkInitErr := none, listing := some [] }).backendArg = some (str ("dir:rest"))
  ∧ (BundledOutput.zero.Initialize (str ("dir:rest"))
        { behaviorConfigured := true, behaviorInitErr := none, mkdirErr := none,
          sinkInitErr := none, listing := some [] }).backendArg ≠ some (str ("rest"))
  ∧ (BundledOutput.zero.Initialize (str ("dir:rest"))
        { behaviorConfigured := true, behaviorInitErr := none, mkdirErr := none,
          sinkInitErr := none, listing := some [] }).state.tempFileDirectory
      = str ("dir") := by
  decide

/-- C6 (amended): when the connection string contains a colon the prefix
before the first colon becomes the buffer directory, otherwise the fixed
default directory is used; in both cases the WHOLE connection string is
passed unmodified to the Upload Backend's `Initialize` whenever a behavior
is configured. -/
theorem C6_connString_handling :
    (∀ (o : BundledOutput) (pre post : GoStr) (env : InitEnv),
        Char.ofNat 58 ∉ pre →
        (o.Initialize (pre ++ Char.ofNat 58 :: post) env).state.tempFileDirectory = pre
        ∧ (env.behaviorConfigured = true →
            (o.Initialize (pre ++ Char.ofNat 58 :: post) env).backendArg =
              some (pre ++ Char.ofNat 58 :: post)))
  ∧ (∀ (o : BundledOutput) (cs : GoStr) (env : InitEnv),
        cs.contains (Char.ofNat 58) = false →
        (o.Initialize cs env).state.tempFileDirectory = defaultTempFileDirectory
        ∧ (env.behaviorConfigured = true →
            (o.Initialize cs env).backendArg = some cs)) := by
  constructor
  · intro o pre post env hpre
    have hc : (pre ++ Char.ofNat 58 :: post).contains (Char.ofNat 58) = true := by
      simp
    have ht := takeWhileNoColon pre post hpre
    rcases env with ⟨bc, bie, me, sie, lst⟩
    cases bc <;> cases bie <;> cases me <;> cases lst <;>
      simp [BundledOutput.Initialize, goSplitN2, hc, ht, queueStragglers]
  · intro o cs env hc
    have hm : Char.ofNat 58 ∉ cs := by simpa using hc
    rcases env with ⟨bc, bie, me, sie, lst⟩
    cases bc <;> cases bie <;> cases me <;> cases lst <;>
      simp [BundledOutput.Initialize, goSplitN2, hm, queueStragglers]

/-- Closed instance of `C6_connString_handling` at `"dir:rest"` and at a
colon-free connection string. -/
theorem C6_connString_handling_witness :
    (BundledOutput.zero.Initialize (str ("dir") ++ Char.ofNat 58 :: str ("rest"))
        { behaviorConfigured := true, behaviorInitErr := none, mkdirErr := none,
          sinkInitErr := none, listing := some [] }).state.tempFileDirectory = str ("dir")
  ∧ (BundledOutput.zero.Initialize (str ("plain"))
        { behaviorConfigured := true, behaviorInitErr := none, mkdirErr := none,
          sinkInitErr := none, listing := some [] }).state.tempFileDirectory
      = defaultTempFileDirectory := by
  constructor
  · exact (C6_connString_handling.1 BundledOutput.zero (str ("dir")) (str ("rest"))
      { behaviorConfigured := true, behaviorInitErr := none, mkdirErr := none,
        sinkInitErr := none, listing := some [] } (by decide)).1
  · exact (C6_connString_handling.2 BundledOutput.zero (str ("plain"))
      { behaviorConfigured := true, behaviorInitErr := none, mkdirErr := none,
        sinkInitErr := none, listing := some [] } (by decide)).1

/-- C7 is false in its "at most one new dispatch occurs per tick" part: a
tick whose elapsed time exceeds the roll-over duration while the pending
queue is non-empty spawns two dispatcher tasks — one for the freshly rolled
file (inside `rollOver`) and one for the popped queue front. -/
theorem C7_two_dispatches_cex :
    ¬ (({ BundledOutput.zero with
            filesToUpload := [str ("queued")] }.handleTick 1
          (Except.ok (str ("rolled")))).spawned.length ≤ 1) := by
  decide

/-- C7 (amended): on a tick, a roll-over is forced exactly when the elapsed
time since the last roll-over strictly exceeds `rollOverDuration`; when the
pending queue is non-empty exactly one path — its front — is removed and
dispatched, so at most one dispatch per tick comes from the queue; a tick
that also performs a time-based roll-over additionally spawns one
dispatcher task for the newly rolled file. -/
theorem C7_tick_dispatch :
    ∀ (o : BundledOutput) (elapsed : Nat) (p : GoStr),
      (elapsed > o.rollOverDuration →
        o.handleTick elapsed (Except.ok p) =
          { state := { o with currentFileSize := 0
                              filesToUpload := o.filesToUpload.drop 1 }
            spawned := p :: o.filesToUpload.take 1
            err := none })
    ∧ (¬ elapsed > o.rollOverDuration →
        o.handleTick elapsed (Except.ok p) =
          { state := { o with filesToUpload := o.filesToUpload.drop 1 }
            spawned := o.filesToUpload.take 1
            err := none }) := by
  intro o elapsed p
  constructor
  · intro h
    cases hq : o.filesToUpload with
    | nil =>
      simp [BundledOutput.handleTick, BundledOutput.rollOver, h, hq]
    | cons fn rest =>
      simp [BundledOutput.handleTick, BundledOutput.rollOver, h, hq]
  · intro h
    cases hq : o.filesToUpload with
    | nil =>
      simp [BundledOutput.handleTick, h, hq]
      rw [← hq]
    | cons fn rest =>
      simp [BundledOutput.handleTick, h, hq]

/-- Closed instance of `C7_tick_dispatch`: with `rollOverDuration = 5` and
queue `[a, b]`, an elapsed time of 6 rolls over and dispatches the rolled
file plus the queue front, while an elapsed time of 3 dispatches the queue
front alone. -/
theorem C7_tick_dispatch_witness :
    ({ BundledOutput.zero with
        rollOverDuration := 5,
        filesToUpload := [str ("a"), str ("b")] }.handleTick 6
      (Except.ok (str ("r")))).spawned = [str ("r"), str ("a")]
  ∧ ({ BundledOutput.zero with
        rollOverDuration := 5,
        filesToUpload := [str ("a"), str ("b")] }.handleTick 3
      (Except.ok (str ("r")))).spawned = [str ("a")] := by
  constructor
  · rw [(C7_tick_dispatch { BundledOutput.zero with
        rollOverDuration := 5,
        filesToUpload := [str ("a"), str ("b")] } 6 (str ("r"))).1 (by decide)]
    decide
  · rw [(C7_tick_dispatch { BundledOutput.zero with
        rollOverDuration := 5,
        filesToUpload := [str ("a"), str ("b")] } 3 (str ("r"))).2 (by decide)]
    decide

/-- C9: the time-triggered and flush-triggered roll-overs have no emptiness
guard: in any state — in particular with `currentFileSize = 0` — a tick past
the roll-over duration, or a SIGHUP flush, still rolls the live file over
and dispatches the resulting (possibly empty) file for upload. -/
theorem C9_unconditional_rollover :
    ∀ (o : BundledOutput) (p : GoStr),
      (∀ elapsed, elapsed > o.rollOverDuration →
        p ∈ (o.handleTick elapsed (Except.ok p)).spawned ∧
        (o.handleTick elapsed (Except.ok p)).state.currentFileSize = 0)
    ∧ ((o.handleHup (Except.ok p)).spawned = [p] ∧
       (o.handleHup (Except.ok p)).state.currentFileSize = 0) := by
  intro o p
  constructor
  · intro elapsed h
    cases hq : o.filesToUpload with
    | nil =>
      simp [BundledOutput.handleTick, BundledOutput.rollOver, h, hq]
    | cons fn rest =>
      simp [BundledOutput.handleTick, BundledOutput.rollOver, h, hq]
  · exact ⟨rfl, rfl⟩

/-- Closed instance of `C9_unconditional_rollover` at the zero state (size
zero, nothing written): the tick still dispatches the rolled file. -/
theorem C9_unconditional_rollover_witness :
    str ("r") ∈ (BundledOutput.zero.handleTick 1 (Except.ok (str ("r")))).spawned ∧
    (BundledOutput.zero.handleTick 1 (Except.ok (str ("r")))).state.currentFileSize
      = 0 := by
  exact (C9_unconditional_rollover BundledOutput.zero (str ("r"))).1 1 (by decide)

/-- C8: `Initialize` never touches `currentFileSize`, so after a successful
`Initialize` on a freshly allocated (zero-valued) struct the tracked size is
0 regardless of what the live base file already holds; consequently the
size threshold in `output` only counts bytes written in this process, and
with pre-existing bytes in the live file an `output` within the threshold
appends without rolling over, letting the live file exceed `maxFileSize`
(`sinkAppend` models the Sink Writer's append to a non-truncated file). -/
theorem C8_size_counter_restart :
    (∀ (o : BundledOutput) (cs : GoStr) (env : InitEnv),
        (o.Initialize cs env).state.currentFileSize = o.currentFileSize)
  ∧ (∀ (cs : GoStr) (env : InitEnv),
        (BundledOutput.zero.Initialize cs env).state.currentFileSize = 0)
  ∧ (∀ (cs : GoStr) (env : InitEnv) (liveBytes msgLen : Nat)
        (appendErr : Option GoStr),
        msgLen ≤ defaultMaxFileSize →
        ((BundledOutput.zero.Initialize cs env).state.output msgLen
            (Except.ok dummyPath) appendErr).spawned = [] ∧
        sinkAppend liveBytes msgLen = liveBytes + msgLen)
  ∧ sinkAppend defaultMaxFileSize 1 > defaultMaxFileSize := by
  have h1 : ∀ (o : BundledOutput) (cs : GoStr) (env : InitEnv),
      (o.Initialize cs env).state.currentFileSize = o.currentFileSize := by
    intro o cs env
    rcases env with ⟨bc, bie, me, sie, lst⟩
    cases bc <;> cases bie <;> cases me <;> cases lst <;>
      by_cases hc : (goSplitN2 cs).length > 1 <;>
        simp [BundledOutput.Initialize, queueStragglers, hc]
  have hmax : ∀ (o : BundledOutput) (cs : GoStr) (env : InitEnv),
      (o.Initialize cs env).state.maxFileSize = defaultMaxFileSize := by
    intro o cs env
    rcases env with ⟨bc, bie, me, sie, lst⟩
    cases bc <;> cases bie <;> cases me <;> cases lst <;>
      by_cases hc : (goSplitN2 cs).length > 1 <;>
        simp [BundledOutput.Initialize, queueStragglers, hc]
  refine ⟨h1, ?_, ?_, ?_⟩
  · intro cs env
    rw [h1]
    rfl
  · intro cs env liveBytes msgLen appendErr hlen
    have hs : (BundledOutput.zero.Initialize cs env).state.currentFileSize = 0 := by
      rw [h1]
      rfl
    have hnot : ¬ ((BundledOutput.zero.Initialize cs env).state.currentFileSize +
        msgLen > (BundledOutput.zero.Initialize cs env).state.maxFileSize) := by
      rw [hs, hmax]
      omega
    exact ⟨by simp [BundledOutput.output, hnot], rfl⟩
  · decide

/-- Closed instance of `C8_size_counter_restart`: after `Initialize`, a
5-byte `output` spawns no roll-over while the (spec-modelled) live file
grows from 100 pre-existing bytes to 105. -/
theorem C8_size_counter_restart_witness :
    ((BundledOutput.zero.Initialize (str ("x"))
        { behaviorConfigured := true, behaviorInitErr := none, mkdirErr := none,
          sinkInitErr := none, listing := some [] }).state.output 5
        (Except.ok dummyPath) none).spawned = []
  ∧ sinkAppend 100 5 = 105 := by
  have h := C8_size_counter_restart.2.2.1 (str ("x"))
    { behaviorConfigured := true, behaviorInitErr := none, mkdirErr := none,
      sinkInitErr := none, listing := some [] } 100 5 none (by decide)
  exact ⟨h.1, h.2⟩

/-- C10: when a behavior is configured and its `Initialize` and the
directory creation succeed but the Sink Writer's `Initialize` fails,
`Initialize` still runs the straggler scan — populating the pending-upload
queue from the listing — and only then returns the Sink Writer's error. -/
theorem C10_stragglers_despite_sink_error :
    ∀ (o : BundledOutput) (cs : GoStr) (env : InitEnv) (e : GoStr)
      (infos : List DirEntry),
      env.behaviorConfigured = true → env.behaviorInitErr = none →
      env.mkdirErr = none → env.sinkInitErr = some e → env.listing = some infos →
      (o.Initialize cs env).err = some e ∧
      (o.Initialize cs env).stragglersRan = true ∧
      (o.Initialize cs env).state.filesToUpload =
        (infos.filter stragglerQualifies).map
          (fun info =>
            filepathJoin (o.Initialize cs env).state.tempFileDirectory info.name) := by
  intro o cs env e infos h1 h2 h3 h4 h5
  by_cases hc : (goSplitN2 cs).length > 1 <;>
    simp [BundledOutput.Initialize, queueStragglers, hc, foldl_stragglerStep,
      h1, h2, h3, h4, h5]

/-- Closed instance of `C10_stragglers_despite_sink_error`: one straggler is
queued and the sink error is returned. -/
theorem C10_stragglers_despite_sink_error_witness :
    (BundledOutput.zero.Initialize (str ("x"))
        { behaviorConfigured := true, behaviorInitErr := none, mkdirErr := none,
          sinkInitErr := some (str ("sink down")),
          listing := some [{ name := str ("event-forwarderA"), isDir := false }] }).err
      = some (str ("sink down"))
  ∧ (BundledOutput.zero.Initialize (str ("x"))
        { behaviorConfigured := true, behaviorInitErr := none, mkdirErr := none,
          sinkInitErr := some (str ("sink down")),
          listing := some [{ name := str ("event-forwarderA"), isDir := false }] }).stragglersRan
      = true
  ∧ (BundledOutput.zero.Initialize (str ("x"))
        { behaviorConfigured := true, behaviorInitErr := none, mkdirErr := none,
          sinkInitErr := some (str ("sink down")),
          listing := some [{ name := str ("event-forwarderA"), isDir := false }] }).state.filesToUpload
      = [filepathJoin defaultTempFileDirectory (str ("event-forwarderA"))] := by
  have h := C10_stragglers_despite_sink_error BundledOutput.zero (str ("x"))
    { behaviorConfigured := true, behaviorInitErr := none, mkdirErr := none,
      sinkInitErr := some (str ("sink down")),
      listing := some [{ name := str ("event-forwarderA"), isDir := false }] }
    (str ("sink down")) [{ name := str ("event-forwarderA"), isDir := false }]
    rfl rfl rfl rfl rfl
  refine ⟨h.1, h.2.1, ?_⟩
  rw [h.2.2]
  decide
